import Mathlib

/-!
Verification of the pool-management subsystem of `pool-server.js`
(simpleswap-exchange-pool): a shallow embedding of the in-memory pool
state, the disk-persistence functions and the HTTP handler bodies, with
theorems about the consume / replenish / persistence behaviour.

Modelling conventions:
* The server is single-pool: `POOL_CONFIG` has the single key `'25'` and
  every runtime operation addresses `memoryPool['25']`, so the registry is
  embedded as the one list of items of that pool.
* The external Item Creator (`createExchange`, a browser round-trip) is
  opaque and fallible; each handler takes the outcome of its creator
  invocations as a parameter (`Option Item`: `none` models a rejected
  promise / thrown error).  `replenishPool` and the admin fill loops call
  `createExchange` exactly once per needed item, which is why their
  creator parameter is indexed only by the item number.
* File-system writes can fail; `syncPoolToDisk` takes boolean outcomes
  for its `writeFile` and `rename` steps.  The uniquely-named temporary
  file is transient (created, then renamed or unlinked), so the disk is
  modelled by the canonical file alone; the atomic rename is the step
  that replaces it wholesale.
* Handlers are modelled at two granularities.  `Op`/`step`/`runOps`
  sequence whole request executions and therefore describe serialized
  executions, in which no two handler bodies overlap.  The event loop
  actually interleaves handlers at `await` points, so operations whose
  size check precedes a long await are additionally split into their
  check and commit phases (`addOneAdmitted`/`addOneCommit`,
  `deficit`/`replenishCommit`), which lets overlapping executions — two
  admitted add-one requests, or an append landing while a replenishment
  run's `Promise.all` is in flight — be represented faithfully.
-/

/-- One exchange record as produced by `createExchange`
(`pool-server.js` lines 239-245): identifier, redeemable URL, the amount
it was created for, and a creation timestamp. -/
structure Item where
  id : String
  exchangeUrl : String
  amount : Nat
  created : String
deriving DecidableEq, Repr

/-- A concrete item used in witnesses; the `amount` field doubles as a
tag distinguishing items. -/
def mkItem (n : Nat) : Item :=
  { id := "e", exchangeUrl := "u", amount := n, created := "" }

/-- Per-pool configuration (`POOL_CONFIG` entry, lines 25-32):
target size, minimum threshold and creation amount. -/
structure PoolConfig where
  size : Nat
  minSize : Nat
  amount : Nat
deriving DecidableEq, Repr

/-- `POOL_SIZE` (line 17, default 5). -/
def POOL_SIZE : Nat := 5

/-- `MIN_POOL_SIZE` (line 18, default 3). -/
def MIN_POOL_SIZE : Nat := 3

/-- `POOL_CONFIG['25']` (lines 25-32), the single configured pool. -/
def POOL_CONFIG25 : PoolConfig :=
  { size := POOL_SIZE, minSize := MIN_POOL_SIZE, amount := 25 }

/-- The mutable module-level server state: `memoryPool['25']`
(line 62), `isDirty` (line 63), `isSyncing` (line 64) and
`replenishmentLock['25']` (line 259). -/
structure ServerState where
  memoryPool : List Item
  isDirty : Bool
  isSyncing : Bool
  replenishmentLock : Bool
deriving DecidableEq, Repr

/-- The canonical pool file (`exchange-pool.json`).  `absent` = no file,
`corrupt` = unparsable JSON, `without25` = a JSON object lacking the
`'25'` key, `withPool l` = a snapshot holding the pool `l`. -/
inductive DiskFile where
  | absent
  | corrupt
  | without25
  | withPool (pool : List Item)
deriving DecidableEq, Repr

/-- `loadPoolIntoMemory` (lines 70-89): reads the snapshot if the file
exists, defaults a missing `'25'` key to `[]`, and falls back to the
empty pool on a missing file or a parse error. -/
def loadPoolIntoMemory : DiskFile → List Item
  | DiskFile.absent => []
  | DiskFile.corrupt => []
  | DiskFile.without25 => []
  | DiskFile.withPool l => l

/-- `syncPoolToDisk` (lines 96-113): skips unless dirty and not already
syncing; writes the snapshot to a fresh temporary file and atomically
renames it over the canonical file; on success clears `isDirty`, on any
write/rename failure leaves `isDirty` set, unlinks the temporary file
best-effort and swallows the error (never raises to its caller — the
embedding is a total function); `isSyncing` is reset in the `finally`.
`writeOk` and `renameOk` are the outcomes of the two file operations. -/
def syncPoolToDisk (s : ServerState) (d : DiskFile) (writeOk renameOk : Bool) :
    ServerState × DiskFile :=
  if !s.isDirty || s.isSyncing then (s, d)
  else if writeOk && renameOk then
    ({ s with isDirty := false, isSyncing := false }, DiskFile.withPool s.memoryPool)
  else
    ({ s with isSyncing := false }, d)

/-- The callback of `startPeriodicDiskSync` (lines 118-126): every
`DISK_SYNC_INTERVAL` (5s) it flushes if dirty and not syncing; it is the
only periodic activity the server starts. -/
def periodicDiskSyncTick (s : ServerState) (d : DiskFile) (writeOk renameOk : Bool) :
    ServerState × DiskFile :=
  if s.isDirty && !s.isSyncing then syncPoolToDisk s d writeOk renameOk else (s, d)

/-- The server state right after the `app.listen` startup callback
(lines 821-850): module initial values with the pool hydrated by
`loadPoolIntoMemory`. -/
def startupState (d : DiskFile) : ServerState :=
  { memoryPool := loadPoolIntoMemory d
    isDirty := false
    isSyncing := false
    replenishmentLock := false }

/-- `normalizeAmount` (lines 322-326): $25 and $35 both map to the `'25'`
pool; anything else throws (`none`). -/
def normalizeAmount (amountUSD : Int) : Option String :=
  if amountUSD = 25 ∨ amountUSD = 35 then some "25" else none

/-- The consume primitive performed by the `/buy-now` fast path
(lines 462-464): if the pool is non-empty, `shift()` the head item and
set `isDirty`; on an empty pool nothing is removed. -/
def tryConsume (s : ServerState) : Option Item × ServerState :=
  match s.memoryPool with
  | [] => (none, s)
  | ex :: rest => (some ex, { s with memoryPool := rest, isDirty := true })

/-- The append primitive performed by the replenishment paths
(`push` + `isDirty = true`, lines 304-305 and 674-675). -/
def appendItem (s : ServerState) (ex : Item) : ServerState :=
  { s with memoryPool := s.memoryPool ++ [ex], isDirty := true }

/-- Appending a whole sequence of items, one `appendItem` at a time. -/
def appendAll (s : ServerState) (xs : List Item) : ServerState :=
  xs.foldl appendItem s

/-- Repeated consumption: performs `tryConsume` `n` times and collects
the returned items in order. -/
def consumeN : Nat → ServerState → List Item × ServerState
  | 0, s => ([], s)
  | Nat.succ n, s =>
    match tryConsume s with
    | (none, s1) => consumeN n s1
    | (some ex, s1) =>
      let t := consumeN n s1
      (ex :: t.1, t.2)

/-- `replenishPool` (lines 265-317).  If the lock is held, returns
immediately.  Otherwise takes the lock, computes
`needed = config.size - memoryPool.length` (the JS value is ≤ 0 exactly
when this Nat subtraction is 0), fires `needed` parallel `createExchange`
calls — one single attempt per item, `creator i` being the outcome of the
i-th call — filters out the failed ones (`null`), pushes the successes
(re-tagged with `amount: 25`), marks dirty and flushes; the `finally`
releases the lock on every path.  `exc` models an unexpected exception
thrown inside the `try` body (caught by the `catch`, before any pool
mutation); the lock release still runs. -/
def replenishPool (s : ServerState) (d : DiskFile) (creator : Nat → Option Item)
    (writeOk renameOk exc : Bool) : ServerState × DiskFile :=
  if s.replenishmentLock then (s, d)
  else
    let s1 := { s with replenishmentLock := true }
    let body :=
      if exc then (s1, d)
      else
        let needed := POOL_CONFIG25.size - s1.memoryPool.length
        if needed = 0 then (s1, d)
        else
          let valid : List Item := ((List.range needed).map creator).filterMap id
          if valid.length > 0 then
            let s2 := { s1 with
              memoryPool := s1.memoryPool ++ valid.map (fun ex : Item => { ex with amount := 25 })
              isDirty := true }
            syncPoolToDisk s2 d writeOk renameOk
          else (s1, d)
    ({ body.1 with replenishmentLock := false }, body.2)

/-- Response of `POST /buy-now` (lines 436-520). -/
inductive BuyResp where
  | badRequest
  | instant (exchangeUrl : String)
  | onDemand (exchangeUrl : String)
  | serverError
deriving DecidableEq, Repr

/-- Result of the synchronous part of a `/buy-now` request, including
which asynchronous follow-ups it schedules via `setImmediate`. -/
structure BuyOutcome where
  resp : BuyResp
  state : ServerState
  triggersReplenish : Bool
  triggersDiskSync : Bool
deriving DecidableEq, Repr

/-- `POST /buy-now` (lines 436-520).  Rejects a missing/falsy or
non-{25,35} `amountUSD`.  Fast path (pool non-empty): `shift()` the head,
mark dirty, schedule an async replenishment only when the remaining size
is below `minSize` (line 471), always schedule an async disk sync, and
answer with the item's URL.  Slow path (pool empty): create one exchange
on demand (`onDemand` is its outcome; `none` = creator threw, answered
with a 500 and nothing is scheduled), hand it straight to the caller
without pooling it, and schedule an async replenishment. -/
def buyNow (s : ServerState) (amountUSD : Option Int) (onDemand : Option Item) :
    BuyOutcome :=
  match amountUSD with
  | none => ⟨BuyResp.badRequest, s, false, false⟩
  | some amt =>
    if amt = 0 then ⟨BuyResp.badRequest, s, false, false⟩
    else if amt = 25 ∨ amt = 35 then
      match s.memoryPool with
      | ex :: rest =>
        ⟨BuyResp.instant ex.exchangeUrl,
          { s with memoryPool := rest, isDirty := true },
          decide (rest.length < POOL_CONFIG25.minSize), true⟩
      | [] =>
        match onDemand with
        | some ex => ⟨BuyResp.onDemand ex.exchangeUrl, s, true, false⟩
        | none => ⟨BuyResp.serverError, s, false, false⟩
    else ⟨BuyResp.badRequest, s, false, false⟩

/-- Response of `POST /admin/init-pool` (lines 526-591). -/
inductive InitResp where
  | alreadyInitializing
  | noExchanges
  | ok (poolSize created failedCount : Nat)
deriving DecidableEq, Repr

/-- `POST /admin/init-pool` (lines 526-591).  If the lock is held,
answers "already initializing".  Otherwise takes the lock, wipes the
in-memory pool (`memoryPool = { '25': [] }`, line 539 — without touching
`isDirty`), fires `config.size` parallel creations whose successes are
pushed (in completion order, modelled by list order), and: if none
succeeded, releases the lock and answers a 500 without setting `isDirty`
or syncing; otherwise sets `isDirty`, flushes, releases the lock and
reports the counts. -/
def initPool (s : ServerState) (d : DiskFile) (creator : Nat → Option Item)
    (writeOk renameOk : Bool) : ServerState × DiskFile × InitResp :=
  if s.replenishmentLock then (s, d, InitResp.alreadyInitializing)
  else
    let s1 := { s with replenishmentLock := true, memoryPool := [] }
    let valid : List Item := ((List.range POOL_CONFIG25.size).map creator).filterMap id
    let s2 := { s1 with memoryPool := valid.map (fun ex : Item => { ex with amount := 25 }) }
    if valid.length = 0 then
      ({ s2 with replenishmentLock := false }, d, InitResp.noExchanges)
    else
      let s3 := { s2 with isDirty := true }
      let t := syncPoolToDisk s3 d writeOk renameOk
      ({ t.1 with replenishmentLock := false }, t.2,
        InitResp.ok t.1.memoryPool.length valid.length
          (POOL_CONFIG25.size - valid.length))

/-- Response of `POST /admin/add-one` (lines 597-635). -/
inductive AddOneResp where
  | alreadyFull (poolSize : Nat)
  | added (poolSize : Nat)
  | creationFailed (poolSize : Nat)
deriving DecidableEq, Repr

/-- `POST /admin/add-one` (lines 597-635): rejected when the pool is
already at `config.size`; otherwise one creation attempt (`outcome`);
on success push, mark dirty and flush; on failure answer a 500 with the
pool untouched. -/
def addOne (s : ServerState) (d : DiskFile) (outcome : Option Item)
    (writeOk renameOk : Bool) : ServerState × DiskFile × AddOneResp :=
  let currentSize := s.memoryPool.length
  if POOL_CONFIG25.size ≤ currentSize then (s, d, AddOneResp.alreadyFull currentSize)
  else
    match outcome with
    | none => (s, d, AddOneResp.creationFailed currentSize)
    | some ex =>
      let s1 := { s with
        memoryPool := s.memoryPool ++ [{ ex with amount := 25 }]
        isDirty := true }
      let t := syncPoolToDisk s1 d writeOk renameOk
      (t.1, t.2, AddOneResp.added t.1.memoryPool.length)

/-- The fullness check at the start of `/admin/add-one` (line 602),
evaluated against the pool as it is when the request begins — before
the tens-of-seconds `createExchange` await at line 612. -/
def addOneAdmitted (s : ServerState) : Bool :=
  !(POOL_CONFIG25.size ≤ s.memoryPool.length)

/-- The remainder of a successful `/admin/add-one` after its await
(lines 613-615): push the item (re-tagged with `amount: 25`), set
`isDirty` and flush — with no re-check of the size.  `s` is the state
at commit time, which may differ from the state the admission check
saw, because other handlers ran during the await. -/
def addOneCommit (s : ServerState) (d : DiskFile) (ex : Item) (writeOk renameOk : Bool) :
    ServerState × DiskFile :=
  let s1 := { s with
    memoryPool := s.memoryPool ++ [{ ex with amount := 25 }]
    isDirty := true }
  syncPoolToDisk s1 d writeOk renameOk

/-- Response of `POST /admin/fill-sequential` (lines 641-709). -/
inductive FillResp where
  | alreadyFilling
  | alreadyFull (poolSize : Nat)
  | done (created failedCount poolSize : Nat)
deriving DecidableEq, Repr

/-- The sequential creation loop of `/admin/fill-sequential`
(lines 670-687): for each needed item one single creation attempt; on
success push the item (re-tagged with `amount: 25`), set `isDirty` and
count `created`; on failure count `failed` and continue with the next
item.  Returns (state, created, failed). -/
def fillSeqLoop : ServerState → List (Option Item) → ServerState × Nat × Nat
  | s, [] => (s, 0, 0)
  | s, some ex :: rest =>
    let t := fillSeqLoop
      { s with memoryPool := s.memoryPool ++ [{ ex with amount := 25 }], isDirty := true }
      rest
    (t.1, t.2.1 + 1, t.2.2)
  | s, none :: rest =>
    let t := fillSeqLoop s rest
    (t.1, t.2.1, t.2.2 + 1)

/-- `POST /admin/fill-sequential` (lines 641-709).  If the lock is held,
answers "already filling".  Otherwise takes the lock, computes the
deficit (already-full answer when it is 0), runs the sequential loop
(one single attempt per item, a fixed 2s pacing delay between
creations), flushes, releases the lock and reports created/failed
counts and the final size. -/
def fillSequential (s : ServerState) (d : DiskFile) (creator : Nat → Option Item)
    (writeOk renameOk : Bool) : ServerState × DiskFile × FillResp :=
  if s.replenishmentLock then (s, d, FillResp.alreadyFilling)
  else
    let s1 := { s with replenishmentLock := true }
    let startSize := s1.memoryPool.length
    let needed := POOL_CONFIG25.size - startSize
    if needed = 0 then
      ({ s1 with replenishmentLock := false }, d, FillResp.alreadyFull startSize)
    else
      let t := fillSeqLoop s1 ((List.range needed).map creator)
      let u := syncPoolToDisk t.1 d writeOk renameOk
      ({ u.1 with replenishmentLock := false }, u.2,
        FillResp.done t.2.1 t.2.2 u.1.memoryPool.length)

/-- Response of `POST /admin/create-verified-exchange` (lines 771-815). -/
inductive VerifiedResp where
  | creationFailed
  | ok (addedToPool : Bool) (poolSize : Nat)
deriving DecidableEq, Repr

/-- `POST /admin/create-verified-exchange` (lines 771-815): one
`createVerifiedExchange` call (`outcome` carries the item and its
`verified` flag; `none` = it threw).  When `verified`, the item is
pushed — with no check against `config.size` — dirty is set and the
pool is flushed.  The credentials precondition is environment
configuration outside the model. -/
def createVerifiedHandler (s : ServerState) (d : DiskFile)
    (outcome : Option (Item × Bool)) (writeOk renameOk : Bool) :
    ServerState × DiskFile × VerifiedResp :=
  match outcome with
  | none => (s, d, VerifiedResp.creationFailed)
  | some (ex, verified) =>
    if verified then
      let s1 := { s with
        memoryPool := s.memoryPool ++ [{ ex with amount := 25 }]
        isDirty := true }
      let t := syncPoolToDisk s1 d writeOk renameOk
      (t.1, t.2, VerifiedResp.ok true t.1.memoryPool.length)
    else (s, d, VerifiedResp.ok false s.memoryPool.length)

/-- `deficit` as the replenishment paths compute it
(`config.size - memoryPool['25'].length`, floored at 0 by the Nat
subtraction — the spec's `max(0, targetSize - size)`). -/
def deficit (s : ServerState) : Nat :=
  POOL_CONFIG25.size - s.memoryPool.length

/-- The commit phase of `replenishPool` (lines 298-309), run when its
`Promise.all` settles: pushes the successes of the `needed` single
attempts and flushes, where `needed` was fixed at run start (line 276)
from the pool of `s0`, while the push lands on the pool of `s2` — the
state reached when the awaits finish, after any handlers that ran in
the meantime. -/
def replenishCommit (s0 s2 : ServerState) (d : DiskFile) (creator : Nat → Option Item)
    (writeOk renameOk : Bool) : ServerState × DiskFile :=
  let valid : List Item := ((List.range (deficit s0)).map creator).filterMap id
  if 0 < valid.length then
    syncPoolToDisk
      { s2 with
        memoryPool := s2.memoryPool ++ valid.map (fun ex : Item => { ex with amount := 25 })
        isDirty := true }
      d writeOk renameOk
  else (s2, d)

/-- `MAX_RETRIES` as the specification describes it (a fixed small
constant, e.g. 3); the implementation has no such constant. -/
def MAX_RETRIES : Nat := 3

/-- Follows the specification text (§4.2, step 3a): one creation tried
with up to `maxRetries` attempts, returning the first success.
`attempts a` is the outcome of attempt `a`. -/
def retryCreate (attempts : Nat → Option Item) (maxRetries : Nat) : Option Item :=
  ((List.range maxRetries).filterMap attempts).head?

/-- Follows the specification text (§4.2): a replenishment run that
closes the deficit sequentially, each item created with up to
`MAX_RETRIES` attempts (`attempts i a` = outcome of attempt `a` of item
`i`); stated for comparison with `replenishPool`, which invokes the
creator exactly once per item. -/
def replenishPoolSpec (s : ServerState) (attempts : Nat → Nat → Option Item) :
    ServerState :=
  if s.replenishmentLock then s
  else
    let needed := POOL_CONFIG25.size - s.memoryPool.length
    let valid : List Item :=
      (List.range needed).filterMap (fun i => retryCreate (attempts i) MAX_RETRIES)
    { s with
      memoryPool := s.memoryPool ++ valid.map (fun ex : Item => { ex with amount := 25 })
      isDirty := s.isDirty || !valid.isEmpty
      replenishmentLock := false }

/-- One atomic server operation: a request handler body, a replenishment
run, or a periodic disk-sync tick, each carrying the outcomes of its
external calls. -/
inductive Op where
  | opBuyNow (amountUSD : Option Int) (onDemand : Option Item)
  | opReplenish (creator : Nat → Option Item) (writeOk renameOk exc : Bool)
  | opAddOne (outcome : Option Item) (writeOk renameOk : Bool)
  | opInitPool (creator : Nat → Option Item) (writeOk renameOk : Bool)
  | opFillSeq (creator : Nat → Option Item) (writeOk renameOk : Bool)
  | opCreateVerified (outcome : Option (Item × Bool)) (writeOk renameOk : Bool)
  | opSyncTick (writeOk renameOk : Bool)

/-- Whether an operation is the `/admin/create-verified-exchange`
handler. -/
def Op.isCreateVerified : Op → Bool
  | Op.opCreateVerified _ _ _ => true
  | _ => false

/-- Effect of one operation on the server state and the pool file. -/
def step (p : ServerState × DiskFile) (o : Op) : ServerState × DiskFile :=
  match o with
  | Op.opBuyNow a oc => ((buyNow p.1 a oc).state, p.2)
  | Op.opReplenish c w r e => replenishPool p.1 p.2 c w r e
  | Op.opAddOne oc w r =>
    let t := addOne p.1 p.2 oc w r
    (t.1, t.2.1)
  | Op.opInitPool c w r =>
    let t := initPool p.1 p.2 c w r
    (t.1, t.2.1)
  | Op.opFillSeq c w r =>
    let t := fillSequential p.1 p.2 c w r
    (t.1, t.2.1)
  | Op.opCreateVerified oc w r =>
    let t := createVerifiedHandler p.1 p.2 oc w r
    (t.1, t.2.1)
  | Op.opSyncTick w r => periodicDiskSyncTick p.1 p.2 w r

/-- Running a sequence of operations. -/
def runOps (p : ServerState × DiskFile) (ops : List Op) : ServerState × DiskFile :=
  ops.foldl step p

/-- States reachable from a fresh first run (no pool file yet) by some
serialized sequence of operations.  Every such sequence is a real
execution of the program (one in which no two handler bodies happened
to overlap), so `Reachable p` soundly witnesses that the program can
reach `p`; the converse does not hold — overlapping executions reach
further states, captured by the split-phase operations above. -/
def Reachable (p : ServerState × DiskFile) : Prop :=
  ∃ ops : List Op, runOps (startupState DiskFile.absent, DiskFile.absent) ops = p

/-- States reachable by a serialized sequence of operations that never
invokes `/admin/create-verified-exchange`.  Serialized means the
requests execute one after another without overlapping at `await`
points; states produced by overlapping executions (for instance two
concurrently admitted add-one requests, see `addOneCommit`) are outside
this predicate. -/
def ReachableSerializedNoVerified (p : ServerState × DiskFile) : Prop :=
  ∃ ops : List Op, (∀ o ∈ ops, o.isCreateVerified = false) ∧
    runOps (startupState DiskFile.absent, DiskFile.absent) ops = p

/-- A state whose replenishment lock is held (a run in flight). -/
def lockedState : ServerState :=
  { memoryPool := [mkItem 1], isDirty := false, isSyncing := false,
    replenishmentLock := true }

/-- A dirty, not-currently-syncing state with a one-item pool. -/
def dirtyState : ServerState :=
  { memoryPool := [mkItem 1], isDirty := true, isSyncing := false,
    replenishmentLock := false }

/-- A dirty, not-currently-syncing state with a two-item pool. -/
def dirtyPairState : ServerState :=
  { memoryPool := [mkItem 3, mkItem 4], isDirty := true, isSyncing := false,
    replenishmentLock := false }

/-- A clean state whose pool is at its target size. -/
def fullPoolState : ServerState :=
  { memoryPool := (List.range POOL_SIZE).map mkItem, isDirty := false,
    isSyncing := false, replenishmentLock := false }

/-- A clean state with a single pooled item. -/
def oneItemState : ServerState :=
  { memoryPool := [mkItem 1], isDirty := false, isSyncing := false,
    replenishmentLock := false }

/-- A clean state whose pool is one below its target size. -/
def fourItemState : ServerState :=
  { memoryPool := (List.range 4).map mkItem, isDirty := false,
    isSyncing := false, replenishmentLock := false }

/-- A creator whose every item fails its first creation attempt and
succeeds on any later one (`flakyAttempts i a` = outcome of attempt `a`
of item `i`): it distinguishes a single-attempt policy (every creation
fails) from a retried policy (every creation eventually succeeds). -/
def flakyAttempts (i a : Nat) : Option Item :=
  if a = 0 then none else some (mkItem i)

/-! ### Helper lemmas -/

lemma syncPoolToDisk_memoryPool (s : ServerState) (d : DiskFile) (w r : Bool) :
    (syncPoolToDisk s d w r).1.memoryPool = s.memoryPool := by
  unfold syncPoolToDisk
  split
  · rfl
  · split <;> rfl

lemma syncPoolToDisk_replenishmentLock (s : ServerState) (d : DiskFile) (w r : Bool) :
    (syncPoolToDisk s d w r).1.replenishmentLock = s.replenishmentLock := by
  unfold syncPoolToDisk
  split
  · rfl
  · split <;> rfl

lemma length_filterMap_add_countP_isNone (l : List (Option Item)) :
    (l.filterMap id).length + l.countP (fun o => o.isNone) = l.length := by
  induction l with
  | nil => simp
  | cons h t ih =>
    cases h with
    | none => simp [List.countP_cons, ← ih]; omega
    | some ex => simp [List.countP_cons, ← ih]; omega

lemma fillSeqLoop_spec (outs : List (Option Item)) (s : ServerState) :
    (fillSeqLoop s outs).1.memoryPool
        = s.memoryPool ++ (outs.filterMap id).map (fun ex : Item => { ex with amount := 25 })
      ∧ (fillSeqLoop s outs).2.1 = (outs.filterMap id).length
      ∧ (fillSeqLoop s outs).2.2 = outs.countP (fun o => o.isNone) := by
  induction outs generalizing s with
  | nil => simp [fillSeqLoop]
  | cons h t ih =>
    cases h with
    | none =>
      have := ih s
      simp [fillSeqLoop, List.countP_cons, this.1, this.2.1, this.2.2]
    | some ex =>
      have := ih { s with
        memoryPool := s.memoryPool ++ [{ ex with amount := 25 }], isDirty := true }
      simp [fillSeqLoop, List.countP_cons, this.1, this.2.1, this.2.2]

lemma appendAll_memoryPool (xs : List Item) (s : ServerState) :
    (appendAll s xs).memoryPool = s.memoryPool ++ xs := by
  induction xs generalizing s with
  | nil => simp [appendAll]
  | cons x t ih =>
    have h1 := ih (appendItem s x)
    simp only [appendAll] at h1 ⊢
    simp only [List.foldl_cons]
    rw [h1]
    simp [appendItem]

lemma consumeN_spec (n : Nat) (s : ServerState) :
    (consumeN n s).1 = s.memoryPool.take n
      ∧ (consumeN n s).2.memoryPool = s.memoryPool.drop n := by
  induction n generalizing s with
  | zero => simp [consumeN]
  | succ n ih =>
    cases hp : s.memoryPool with
    | nil =>
      have hc : tryConsume s = (none, s) := by simp [tryConsume, hp]
      simp [consumeN, hc, (ih s).1, (ih s).2, hp]
    | cons ex rest =>
      have hc : tryConsume s
          = (some ex, { s with memoryPool := rest, isDirty := true }) := by
        simp [tryConsume, hp]
      have := ih { s with memoryPool := rest, isDirty := true }
      simp [consumeN, hc, this.1, this.2, hp]

lemma replenishPool_locked (s : ServerState) (d : DiskFile) (creator : Nat → Option Item)
    (w r e : Bool) (h : s.replenishmentLock = true) :
    replenishPool s d creator w r e = (s, d) := by
  simp [replenishPool, h]

lemma replenishPool_memoryPool (s : ServerState) (d : DiskFile)
    (creator : Nat → Option Item) (w r : Bool) (h : s.replenishmentLock = false) :
    (replenishPool s d creator w r false).1.memoryPool
      = s.memoryPool
        ++ ((List.range (POOL_CONFIG25.size - s.memoryPool.length)).filterMap
              creator).map (fun ex : Item => { ex with amount := 25 }) := by
  unfold replenishPool
  by_cases h0 : POOL_CONFIG25.size - s.memoryPool.length = 0
  · simp [h, h0]
  · by_cases hv :
        0 < ((List.range (POOL_CONFIG25.size - s.memoryPool.length)).filterMap creator).length
    · simp [h, h0, hv, List.filterMap_map, syncPoolToDisk_memoryPool]
    · have he : ((List.range (POOL_CONFIG25.size - s.memoryPool.length)).filterMap creator)
          = [] := by
        exact List.length_eq_zero.mp (by omega)
      simp [h, h0, hv, List.filterMap_map, he]

lemma replenishPool_lock_released (s : ServerState) (d : DiskFile)
    (creator : Nat → Option Item) (w r e : Bool) (h : s.replenishmentLock = false) :
    (replenishPool s d creator w r e).1.replenishmentLock = false := by
  simp [replenishPool, h]

lemma replenishPool_exc_memoryPool (s : ServerState) (d : DiskFile)
    (creator : Nat → Option Item) (w r : Bool) (h : s.replenishmentLock = false) :
    (replenishPool s d creator w r true).1.memoryPool = s.memoryPool := by
  simp [replenishPool, h]

lemma buyNow_memoryPool_le (s : ServerState) (a : Option Int) (oc : Option Item) :
    (buyNow s a oc).state.memoryPool.length ≤ s.memoryPool.length := by
  unfold buyNow
  cases a with
  | none => simp
  | some amt =>
    by_cases h0 : amt = 0
    · simp [h0]
    · by_cases h1 : amt = 25 ∨ amt = 35
      · cases hp : s.memoryPool with
        | nil => cases oc <;> simp [h0, h1, hp]
        | cons ex rest => simp [h0, h1, hp]
      · simp [h0, h1]

lemma periodicDiskSyncTick_memoryPool (s : ServerState) (d : DiskFile) (w r : Bool) :
    (periodicDiskSyncTick s d w r).1.memoryPool = s.memoryPool := by
  unfold periodicDiskSyncTick
  split
  · exact syncPoolToDisk_memoryPool s d w r
  · rfl

lemma initPool_memoryPool (s : ServerState) (d : DiskFile) (creator : Nat → Option Item)
    (w r : Bool) (hl : s.replenishmentLock = false) :
    (initPool s d creator w r).1.memoryPool
      = (((List.range POOL_CONFIG25.size).map creator).filterMap id).map
          (fun ex : Item => { ex with amount := 25 }) := by
  unfold initPool
  rw [if_neg (by simp [hl])]
  dsimp only
  split
  · rfl
  · simp [syncPoolToDisk_memoryPool]

lemma step_memoryPool_le (p : ServerState × DiskFile) (o : Op)
    (hcv : o.isCreateVerified = false)
    (hle : p.1.memoryPool.length ≤ POOL_CONFIG25.size) :
    (step p o).1.memoryPool.length ≤ POOL_CONFIG25.size := by
  cases o with
  | opBuyNow a oc =>
    exact le_trans (buyNow_memoryPool_le p.1 a oc) hle
  | opReplenish c w r e =>
    cases hl : p.1.replenishmentLock with
    | true => simpa [step, replenishPool_locked p.1 p.2 c w r e hl] using hle
    | false =>
      cases e with
      | true => simpa [step, replenishPool_exc_memoryPool p.1 p.2 c w r hl] using hle
      | false =>
        have hm := replenishPool_memoryPool p.1 p.2 c w r hl
        have hf : ((List.range (POOL_CONFIG25.size - p.1.memoryPool.length)).filterMap
              c).length ≤ POOL_CONFIG25.size - p.1.memoryPool.length := by
          simpa using List.length_filterMap_le c
            (List.range (POOL_CONFIG25.size - p.1.memoryPool.length))
        simp only [step, hm, List.length_append, List.length_map]
        omega
  | opAddOne oc w r =>
    simp only [step, addOne]
    by_cases hfull : POOL_CONFIG25.size ≤ p.1.memoryPool.length
    · simpa [hfull] using hle
    · cases oc with
      | none => simpa [hfull] using hle
      | some ex =>
        simp only [hfull, if_false, syncPoolToDisk_memoryPool, List.length_append,
          List.length_singleton]
        omega
  | opInitPool c w r =>
    cases hl : p.1.replenishmentLock with
    | true => simpa [step, initPool, hl] using hle
    | false =>
      have hm := initPool_memoryPool p.1 p.2 c w r hl
      have hf := List.length_filterMap_le id ((List.range POOL_CONFIG25.size).map c)
      simp only [step, hm, List.length_map]
      simpa [List.length_map, List.length_range] using hf
  | opFillSeq c w r =>
    simp only [step, fillSequential]
    by_cases hl : p.1.replenishmentLock
    · simpa [hl] using hle
    · by_cases h0 : POOL_CONFIG25.size - p.1.memoryPool.length = 0
      · simpa [hl, h0] using hle
      · have hs := fillSeqLoop_spec
          ((List.range (POOL_CONFIG25.size - p.1.memoryPool.length)).map c)
          { p.1 with replenishmentLock := true }
        have hf : ((((List.range (POOL_CONFIG25.size - p.1.memoryPool.length)).map
              c).filterMap id).length
            ≤ POOL_CONFIG25.size - p.1.memoryPool.length) := by
          simpa using List.length_filterMap_le id
            ((List.range (POOL_CONFIG25.size - p.1.memoryPool.length)).map c)
        simp only [hl, Bool.false_eq_true, if_false, h0, syncPoolToDisk_memoryPool,
          hs.1, List.length_append, List.length_map]
        omega
  | opCreateVerified oc w r => simp [Op.isCreateVerified] at hcv
  | opSyncTick w r =>
    simpa [step, periodicDiskSyncTick_memoryPool] using hle

lemma runOps_memoryPool_le (ops : List Op) (p : ServerState × DiskFile)
    (hcv : ∀ o ∈ ops, o.isCreateVerified = false)
    (hle : p.1.memoryPool.length ≤ POOL_CONFIG25.size) :
    (runOps p ops).1.memoryPool.length ≤ POOL_CONFIG25.size := by
  induction ops generalizing p with
  | nil => simpa [runOps] using hle
  | cons o t ih =>
    simp only [runOps, List.foldl_cons] at ih ⊢
    exact ih (step p o) (fun x hx => hcv x (List.mem_cons_of_mem _ hx))
      (step_memoryPool_le p o (hcv o (List.mem_cons_self _ _)) hle)

lemma fillSequential_spec (s : ServerState) (d : DiskFile) (creator : Nat → Option Item)
    (w r : Bool) (hl : s.replenishmentLock = false)
    (h0 : POOL_CONFIG25.size - s.memoryPool.length ≠ 0) :
    (fillSequential s d creator w r).1.memoryPool
        = s.memoryPool
          ++ ((((List.range (POOL_CONFIG25.size - s.memoryPool.length)).map
                creator).filterMap id).map (fun ex : Item => { ex with amount := 25 }))
      ∧ (fillSequential s d creator w r).2.2
        = FillResp.done
            ((((List.range (POOL_CONFIG25.size - s.memoryPool.length)).map
                creator).filterMap id).length)
            (((List.range (POOL_CONFIG25.size - s.memoryPool.length)).map
                creator).countP (fun o => o.isNone))
            (s.memoryPool.length
              + (((List.range (POOL_CONFIG25.size - s.memoryPool.length)).map
                  creator).filterMap id).length) := by
  have hs := fillSeqLoop_spec
    ((List.range (POOL_CONFIG25.size - s.memoryPool.length)).map creator)
    { s with replenishmentLock := true }
  unfold fillSequential
  rw [if_neg (by simp [hl])]
  dsimp only
  rw [if_neg h0]
  dsimp only
  constructor
  · rw [syncPoolToDisk_memoryPool, hs.1]
  · rw [syncPoolToDisk_memoryPool, hs.1, hs.2.1, hs.2.2]
    simp [List.length_append]

/-! ### Claim theorems -/

/-- C2: the per-pool replenishment lock gives mutual exclusion — calling
`replenishPool` while the `'25'` lock is held returns immediately with
state and disk unchanged (a no-op: no items are double-created, so the
pool grows only by the first run's successes), and whenever a run does
start (lock initially free) the lock is `false` again on every exit
path: pool already full, partial or full success, and an unexpected
exception inside the `try` body alike (the `finally` release). -/
theorem c2_lock_mutual_exclusion_and_release (s : ServerState) (d : DiskFile)
    (creator : Nat → Option Item) (w r e : Bool) :
    (s.replenishmentLock = true → replenishPool s d creator w r e = (s, d))
      ∧ (s.replenishmentLock = false →
          (replenishPool s d creator w r e).1.replenishmentLock = false) :=
  ⟨fun h => replenishPool_locked s d creator w r e h,
   fun h => replenishPool_lock_released s d creator w r e h⟩

/-- Witness for C2: a locked state is left untouched by a second run,
and an unlocked run ends with the lock released. -/
theorem c2_lock_mutual_exclusion_and_release_witness :
    replenishPool lockedState DiskFile.absent (fun i => some (mkItem i)) true true false
      = (lockedState, DiskFile.absent)
    ∧ (replenishPool (startupState DiskFile.absent) DiskFile.absent
        (fun i => some (mkItem i)) true true false).1.replenishmentLock = false :=
  ⟨(c2_lock_mutual_exclusion_and_release _ _ _ _ _ _).1 rfl,
   (c2_lock_mutual_exclusion_and_release _ _ _ _ _ _).2 rfl⟩

/-- C3: `syncPoolToDisk` is a no-op unless `isDirty` is set and no flush
is in progress; a flush that succeeds installs the full snapshot as the
canonical file and clears `isDirty`; a failed write or rename leaves the
canonical file untouched and `isDirty` set (so the periodic tick
retries); and in all cases the canonical file is either the old one or
the complete new snapshot (atomic replace, never a partial write).  The
embedding being a total function reflects that the handler swallows all
errors and never raises to its caller. -/
theorem c3_flush_contract (s : ServerState) (d : DiskFile) (w r : Bool) :
    ((s.isDirty = false ∨ s.isSyncing = true) → syncPoolToDisk s d w r = (s, d))
    ∧ (s.isDirty = true → s.isSyncing = false → w = true → r = true →
        (syncPoolToDisk s d w r).1.isDirty = false
          ∧ (syncPoolToDisk s d w r).2 = DiskFile.withPool s.memoryPool)
    ∧ (s.isDirty = true → s.isSyncing = false → (w = false ∨ r = false) →
        (syncPoolToDisk s d w r).1.isDirty = true
          ∧ (syncPoolToDisk s d w r).2 = d)
    ∧ ((syncPoolToDisk s d w r).2 = d
        ∨ (syncPoolToDisk s d w r).2 = DiskFile.withPool s.memoryPool) := by
  cases hd : s.isDirty <;> cases hs : s.isSyncing <;> cases w <;> cases r <;>
    simp [syncPoolToDisk, hd, hs]

/-- Witness for C3: a dirty, non-syncing state flushes its snapshot on
success, and keeps `isDirty` when the write fails. -/
theorem c3_flush_contract_witness :
    (syncPoolToDisk dirtyState DiskFile.absent true true).2
      = DiskFile.withPool [mkItem 1]
    ∧ (syncPoolToDisk dirtyState DiskFile.absent false true).1.isDirty = true :=
  ⟨((c3_flush_contract _ _ _ _).2.1 rfl rfl rfl rfl).2,
   ((c3_flush_contract _ _ _ _).2.2.1 rfl rfl (Or.inl rfl)).1⟩

/-- C4: the pool is a FIFO queue — appending `x1, ..., xn` to an empty
pool (the `push` of the replenishment paths) and then consuming `n`
times (the `shift()` of the buy-now fast path) returns `x1, ..., xn` in
that order, each consume removing the head, and leaves the pool empty. -/
theorem c4_fifo_order (s : ServerState) (xs : List Item) (h : s.memoryPool = []) :
    (consumeN xs.length (appendAll s xs)).1 = xs
      ∧ (consumeN xs.length (appendAll s xs)).2.memoryPool = [] := by
  have hp := appendAll_memoryPool xs s
  rw [h] at hp
  simp only [List.nil_append] at hp
  have hc := consumeN_spec xs.length (appendAll s xs)
  rw [hp] at hc
  exact ⟨by simpa [List.take_length] using hc.1,
    by simpa [List.drop_length] using hc.2⟩

/-- Witness for C4: two appended items come back in append order. -/
theorem c4_fifo_order_witness :
    (consumeN 2 (appendAll (startupState DiskFile.absent) [mkItem 1, mkItem 2])).1
      = [mkItem 1, mkItem 2] :=
  (c4_fifo_order (startupState DiskFile.absent) [mkItem 1, mkItem 2] rfl).1

/-- C5: persistence round-trips — for any registry state (dirty and not
mid-flush, so the flush actually writes) the snapshot installed by a
successful `syncPoolToDisk` is loaded back by `loadPoolIntoMemory` as
exactly the same pool, order and contents preserved. -/
theorem c5_persistence_roundtrip (s : ServerState) (d : DiskFile)
    (hdirty : s.isDirty = true) (hsync : s.isSyncing = false) :
    loadPoolIntoMemory (syncPoolToDisk s d true true).2 = s.memoryPool := by
  simp [syncPoolToDisk, hdirty, hsync, loadPoolIntoMemory]

/-- Witness for C5 on a two-item pool. -/
theorem c5_persistence_roundtrip_witness :
    loadPoolIntoMemory (syncPoolToDisk dirtyPairState DiskFile.absent true true).2
      = [mkItem 3, mkItem 4] :=
  c5_persistence_roundtrip _ _ rfl rfl

/-- C9: a replenishment run tolerates partial failure — with `n` items
needed and `k` of the `n` single-attempt creations failing, the
sequential fill run is not aborted early: it reports
`created = n - k`, `failed = k` and a final size of `startSize + (n-k)`,
the pool really ends at that size, and the background `replenishPool`
run likewise ends with `size = startSize + (n - k)`. -/
theorem c9_partial_failure_resilience (s : ServerState) (d : DiskFile)
    (creator : Nat → Option Item) (w r : Bool) (n k : Nat)
    (hlock : s.replenishmentLock = false)
    (hlt : s.memoryPool.length < POOL_CONFIG25.size)
    (hn : n = POOL_CONFIG25.size - s.memoryPool.length)
    (hk : k = ((List.range n).map creator).countP (fun o => o.isNone)) :
    (fillSequential s d creator w r).2.2
        = FillResp.done (n - k) k (s.memoryPool.length + (n - k))
      ∧ (fillSequential s d creator w r).1.memoryPool.length
        = s.memoryPool.length + (n - k)
      ∧ (replenishPool s d creator w r false).1.memoryPool.length
        = s.memoryPool.length + (n - k) := by
  have h0 : POOL_CONFIG25.size - s.memoryPool.length ≠ 0 := by omega
  have hlen : ((List.range n).map creator).length = n := by simp
  have hck := length_filterMap_add_countP_isNone ((List.range n).map creator)
  have hcreated : (((List.range n).map creator).filterMap id).length = n - k := by
    omega
  have hfs := fillSequential_spec s d creator w r hlock h0
  have hrp := replenishPool_memoryPool s d creator w r hlock
  have hfm : (List.range n).filterMap creator
      = ((List.range n).map creator).filterMap id := by
    simp [List.filterMap_map]
  refine ⟨?_, ?_, ?_⟩
  · rw [hfs.2, ← hn, hcreated, ← hk]
  · rw [hfs.1, ← hn, List.length_append, List.length_map, hcreated]
  · rw [hrp, ← hn, List.length_append, List.length_map, hfm, hcreated]

/-- Witness for C9: from an empty pool with items 1 and 3 failing,
the run reports 3 created, 2 failed, final size 3. -/
theorem c9_partial_failure_resilience_witness :
    (fillSequential (startupState DiskFile.absent) DiskFile.absent
        (fun i => if i % 2 = 0 then some (mkItem i) else none) true true).2.2
      = FillResp.done (5 - 2) 2 ((startupState DiskFile.absent).memoryPool.length + (5 - 2)) :=
  (c9_partial_failure_resilience (startupState DiskFile.absent) DiskFile.absent
      (fun i => if i % 2 = 0 then some (mkItem i) else none) true true 5 2
      rfl (by decide) (by decide) (by decide)).1

/-- C10: when `/admin/init-pool` is invoked with the lock free and every
creation fails, the previous pool contents have already been wiped from
memory (the handler empties the pool before creating), an error response
(`noExchanges`, a 500) is returned, the lock is released, yet `isDirty`
is left exactly as it was and no flush happens on that path (the disk is
unchanged); in particular if the state was clean beforehand, a later
periodic disk-sync tick does nothing, so the wipe is never persisted. -/
theorem c10_init_pool_wipes_memory_only (s : ServerState) (d : DiskFile)
    (creator : Nat → Option Item) (w r : Bool)
    (hlock : s.replenishmentLock = false)
    (hfail : ∀ i, creator i = none) :
    (initPool s d creator w r).2.2 = InitResp.noExchanges
      ∧ (initPool s d creator w r).1.memoryPool = []
      ∧ (initPool s d creator w r).1.isDirty = s.isDirty
      ∧ (initPool s d creator w r).1.replenishmentLock = false
      ∧ (initPool s d creator w r).2.1 = d
      ∧ (s.isDirty = false →
          periodicDiskSyncTick (initPool s d creator w r).1 d true true
            = ((initPool s d creator w r).1, d)) := by
  have hv : ((List.range POOL_CONFIG25.size).map creator).filterMap id = [] := by
    simp [List.filterMap_map, List.filterMap_eq_nil_iff, hfail]
  unfold initPool
  rw [if_neg (by simp [hlock])]
  dsimp only
  rw [hv]
  simp only [List.map_nil, List.length_nil, if_pos rfl]
  refine ⟨rfl, rfl, rfl, rfl, rfl, fun hclean => ?_⟩
  simp [periodicDiskSyncTick, hclean]

/-- Witness for C10: a clean one-item pool is wiped in memory by a
fully-failing init, with an error response and `isDirty` still unset. -/
theorem c10_init_pool_wipes_memory_only_witness :
    (initPool oneItemState DiskFile.absent (fun _ => none) true true).2.2
        = InitResp.noExchanges
      ∧ (initPool oneItemState DiskFile.absent (fun _ => none) true true).1.memoryPool
        = []
      ∧ (initPool oneItemState DiskFile.absent (fun _ => none) true true).1.isDirty
        = oneItemState.isDirty :=
  ⟨(c10_init_pool_wipes_memory_only oneItemState DiskFile.absent (fun _ => none)
      true true rfl (fun _ => rfl)).1,
   (c10_init_pool_wipes_memory_only oneItemState DiskFile.absent (fun _ => none)
      true true rfl (fun _ => rfl)).2.1,
   (c10_init_pool_wipes_memory_only oneItemState DiskFile.absent (fun _ => none)
      true true rfl (fun _ => rfl)).2.2.1⟩

/-- C1 counterexample: with `flakyAttempts` — every creation fails its
first attempt and would succeed on a retry — the code's replenishment
run (`replenishPool`, which invokes `createExchange` exactly once per
needed item, i.e. attempt 0, with no retry loop and no backoff) adds
nothing to an empty pool, and the sequential `/admin/fill-sequential`
run likewise adds nothing; the specified policy (`replenishPoolSpec`,
up to `MAX_RETRIES` attempts per item) fills the pool to target — so the
implemented run does not retry creations. -/
theorem c1_counterexample_no_retries :
    (replenishPool (startupState DiskFile.absent) DiskFile.absent
        (fun i => flakyAttempts i 0) true true false).1.memoryPool = []
    ∧ (fillSequential (startupState DiskFile.absent) DiskFile.absent
        (fun i => flakyAttempts i 0) true true).1.memoryPool = []
    ∧ (replenishPoolSpec (startupState DiskFile.absent)
        flakyAttempts).memoryPool.length = POOL_CONFIG25.size
    ∧ (replenishPool (startupState DiskFile.absent) DiskFile.absent
        (fun i => flakyAttempts i 0) true true false).1.memoryPool
      ≠ (replenishPoolSpec (startupState DiskFile.absent)
          flakyAttempts).memoryPool := by decide

/-- C1 amended: a replenishment run makes exactly one creation attempt
per needed item — no retries, no backoff — and appends precisely the
successful single attempts: `replenishPool` (which issues the attempts
concurrently via `Promise.all`) and the `/admin/fill-sequential` run
(which issues them one at a time with a fixed 2s pacing delay) both end
with the pool extended by the successes of `creator 0 .. creator
(deficit-1)`, failures skipped. -/
theorem c1_amended_single_attempt_per_item (s : ServerState) (d : DiskFile)
    (creator : Nat → Option Item) (w r : Bool)
    (hlock : s.replenishmentLock = false) :
    (replenishPool s d creator w r false).1.memoryPool
        = s.memoryPool
          ++ ((List.range (POOL_CONFIG25.size - s.memoryPool.length)).filterMap
                creator).map (fun ex : Item => { ex with amount := 25 })
    ∧ (s.memoryPool.length < POOL_CONFIG25.size →
        (fillSequential s d creator w r).1.memoryPool
          = s.memoryPool
            ++ ((List.range (POOL_CONFIG25.size - s.memoryPool.length)).filterMap
                  creator).map (fun ex : Item => { ex with amount := 25 })) := by
  refine ⟨replenishPool_memoryPool s d creator w r hlock, fun hlt => ?_⟩
  have h0 : POOL_CONFIG25.size - s.memoryPool.length ≠ 0 := by omega
  rw [(fillSequential_spec s d creator w r hlock h0).1]
  simp [List.filterMap_map]

/-- Witness for C1 amended: an all-succeeding creator fills an empty
pool with exactly its five single-attempt results. -/
theorem c1_amended_single_attempt_per_item_witness :
    (replenishPool (startupState DiskFile.absent) DiskFile.absent
        (fun i => some (mkItem i)) true true false).1.memoryPool
      = (startupState DiskFile.absent).memoryPool
        ++ ((List.range
              (POOL_CONFIG25.size
                - (startupState DiskFile.absent).memoryPool.length)).filterMap
              (fun i => some (mkItem i))).map
            (fun ex : Item => { ex with amount := 25 }) :=
  (c1_amended_single_attempt_per_item (startupState DiskFile.absent) DiskFile.absent
      (fun i => some (mkItem i)) true true rfl).1

/-- C6 counterexample: the pool size does exceed `targetSize` in a
reachable state — six `/admin/create-verified-exchange` requests, each
returning a verified item, push the pool to 6 > 5, because that handler
appends with no check against `config.size`. -/
theorem c6_counterexample_pool_exceeds_target :
    (¬ (∀ p : ServerState × DiskFile, Reachable p →
        p.1.memoryPool.length ≤ POOL_CONFIG25.size))
    ∧ addOneAdmitted fourItemState = true
    ∧ (addOneCommit
        (addOneCommit fourItemState DiskFile.absent (mkItem 8) true true).1
        (addOneCommit fourItemState DiskFile.absent (mkItem 8) true true).2
        (mkItem 9) true true).1.memoryPool.length = 6
    ∧ (replenishCommit fourItemState fullPoolState DiskFile.absent
        (fun i => some (mkItem i)) true true).1.memoryPool.length = 6 := by
  refine ⟨?_, by decide, by decide, by decide⟩
  intro hall
  have h6 := hall
    (runOps (startupState DiskFile.absent, DiskFile.absent)
      (List.replicate 6 (Op.opCreateVerified (some (mkItem 0, true)) true true)))
    ⟨List.replicate 6 (Op.opCreateVerified (some (mkItem 0, true)) true true), rfl⟩
  have hlen : (runOps (startupState DiskFile.absent, DiskFile.absent)
      (List.replicate 6 (Op.opCreateVerified (some (mkItem 0, true)) true
        true))).1.memoryPool.length = 6 := by decide
  rw [hlen] at h6
  exact absurd h6 (by decide)

/-- C6 amended: what survives of the size bound.  (1) In every state
reachable by serialized requests (no overlapping handler bodies) that
never invoke `/admin/create-verified-exchange`, the pool size never
exceeds `targetSize`: buy-now only shrinks the pool, `replenishPool`,
`/admin/fill-sequential` and `/admin/init-pool` append at most their
deficit, `/admin/add-one` rejects a full pool, and the disk-sync tick
leaves the pool alone.  (2) A replenishment run whose awaits overlap
only with consumption (commit-time pool no longer than begin-time pool)
still never pushes the pool past `targetSize`, because it appends at
most the deficit fixed at run start.  (3) `/admin/add-one` refuses to
start at all when the pool is already at `targetSize`.  The global
bound does not extend to overlapping executions: the counterexample
shows two concurrently admitted add-one requests, or an append landing
during a replenishment run's `Promise.all`, exceeding `targetSize`
without create-verified-exchange, since those handlers never re-check
the size after their awaits. -/
theorem c6_amended_size_bound_serialized :
    (∀ p : ServerState × DiskFile, ReachableSerializedNoVerified p →
        p.1.memoryPool.length ≤ POOL_CONFIG25.size)
    ∧ (∀ (s0 s2 : ServerState) (d : DiskFile) (creator : Nat → Option Item)
        (w r : Bool),
        s0.memoryPool.length ≤ POOL_CONFIG25.size →
        s2.memoryPool.length ≤ s0.memoryPool.length →
        (replenishCommit s0 s2 d creator w r).1.memoryPool.length
          ≤ POOL_CONFIG25.size)
    ∧ (∀ (s : ServerState) (d : DiskFile) (oc : Option Item) (w r : Bool),
        POOL_CONFIG25.size ≤ s.memoryPool.length →
        addOne s d oc w r = (s, d, AddOneResp.alreadyFull s.memoryPool.length)) := by
  refine ⟨?_, ?_, ?_⟩
  · intro p h
    obtain ⟨ops, hcv, hrun⟩ := h
    subst hrun
    exact runOps_memoryPool_le ops _ hcv (by decide)
  · intro s0 s2 d creator w r h0 h2
    have hf : (((List.range (deficit s0)).map creator).filterMap id).length
        ≤ deficit s0 := by
      simpa using List.length_filterMap_le id ((List.range (deficit s0)).map creator)
    have hd : deficit s0 = POOL_CONFIG25.size - s0.memoryPool.length := rfl
    unfold replenishCommit
    dsimp only
    split
    · simp only [syncPoolToDisk_memoryPool, List.length_append, List.length_map]
      omega
    · simpa using le_trans h2 h0
  · intro s d oc w r hfull
    unfold addOne
    rw [if_pos hfull]

/-- Witness for C6 amended: the freshly started server is within bound;
a replenish begun at 2 items and committed at 1 item (one consumed
during the awaits) ends at 4 ≤ 5; add-one at a full pool is refused. -/
theorem c6_amended_size_bound_serialized_witness :
    (startupState DiskFile.absent, DiskFile.absent).1.memoryPool.length
        ≤ POOL_CONFIG25.size
    ∧ (replenishCommit dirtyPairState oneItemState DiskFile.absent
        (fun i => some (mkItem i)) true true).1.memoryPool.length
        ≤ POOL_CONFIG25.size
    ∧ addOne fullPoolState DiskFile.absent (some (mkItem 9)) true true
      = (fullPoolState, DiskFile.absent,
          AddOneResp.alreadyFull fullPoolState.memoryPool.length) :=
  ⟨c6_amended_size_bound_serialized.1 (startupState DiskFile.absent, DiskFile.absent)
      ⟨[], fun o ho => absurd ho (List.not_mem_nil o), rfl⟩,
   c6_amended_size_bound_serialized.2.1 dirtyPairState oneItemState DiskFile.absent
      (fun i => some (mkItem i)) true true (by decide) (by decide),
   c6_amended_size_bound_serialized.2.2 fullPoolState DiskFile.absent
      (some (mkItem 9)) true true (by decide)⟩

/-- C7 counterexample: a consume served from a full pool (5 items,
`minSize` 3) succeeds from memory yet schedules no asynchronous
replenishment — after the shift 4 < 3 is false — refuting the claim that
every consume triggers a replenishment check. -/
theorem c7_counterexample_no_trigger_above_min :
    (buyNow fullPoolState (some 25) none).resp = BuyResp.instant "u"
    ∧ (buyNow fullPoolState (some 25) none).triggersReplenish = false := by decide

/-- C7 amended: a `/buy-now` request schedules an asynchronous
replenishment exactly when the amount is valid and either (a) it was
served from the pool and the remaining size is below `minSize`
(the trigger is minSize-gated, not instant), or (b) the pool was empty
and the on-demand creation succeeded. -/
theorem c7_amended_minsize_gated_trigger (s : ServerState) (a : Option Int)
    (oc : Option Item) :
    (buyNow s a oc).triggersReplenish = true
      ↔ ((a = some 25 ∨ a = some 35)
          ∧ ((∃ ex rest, s.memoryPool = ex :: rest
                ∧ rest.length < POOL_CONFIG25.minSize)
             ∨ (s.memoryPool = [] ∧ oc.isSome = true))) := by
  cases a with
  | none => simp [buyNow]
  | some amt =>
    by_cases h0 : amt = 0
    · subst h0
      simp [buyNow]
    · by_cases h1 : amt = 25 ∨ amt = 35
      · rcases h1 with h1 | h1 <;> subst h1 <;>
          cases hp : s.memoryPool with
          | nil => cases oc <;> simp [buyNow, hp]
          | cons ex rest =>
            simp [buyNow, hp]
            constructor
            · intro h
              exact ⟨ex, rest, ⟨rfl, rfl⟩, h⟩
            · rintro ⟨e1, r1, ⟨he, hr⟩, hlt⟩
              subst hr
              exact hlt
      · have h25 : amt ≠ 25 := fun hc => h1 (Or.inl hc)
        have h35 : amt ≠ 35 := fun hc => h1 (Or.inr hc)
        simp [buyNow, h0, h25, h35]

/-- Witness for C7 amended: consuming from a one-item pool leaves 0 < 3
remaining, so the replenishment is scheduled. -/
theorem c7_amended_minsize_gated_trigger_witness :
    (buyNow oneItemState (some 25) none).triggersReplenish = true :=
  (c7_amended_minsize_gated_trigger oneItemState (some 25) none).mpr
    ⟨Or.inl rfl, Or.inl ⟨mkItem 1, [], rfl, by decide⟩⟩

/-- C8 counterexample: the freshly started server has deficit 5 > 0 and
a free replenishment lock, yet the periodic tick — the only scheduled
activity, `startPeriodicDiskSync` — leaves the state and the disk
exactly unchanged: no replenishment run is started (the lock stays
free, the pool stays empty), because no health-audit activity exists. -/
theorem c8_counterexample_no_health_audit :
    0 < deficit (startupState DiskFile.absent)
    ∧ (startupState DiskFile.absent).replenishmentLock = false
    ∧ periodicDiskSyncTick (startupState DiskFile.absent) DiskFile.absent true true
      = (startupState DiskFile.absent, DiskFile.absent) := by decide

/-- C8 amended: the only periodic activity the server schedules is the
disk-sync tick (every 5s): it never touches the pool or the
replenishment lock — so it never starts a replenishment run, whatever
the deficit — it flushes exactly when the state is dirty and not
already syncing, and otherwise does nothing at all.  Convergence to
`targetSize` relies on the consume-path triggers and admin endpoints,
not on any health-audit timer. -/
theorem c8_amended_tick_only_flushes (s : ServerState) (d : DiskFile) (w r : Bool) :
    (periodicDiskSyncTick s d w r).1.memoryPool = s.memoryPool
    ∧ (periodicDiskSyncTick s d w r).1.replenishmentLock = s.replenishmentLock
    ∧ ((s.isDirty = true ∧ s.isSyncing = false) →
        periodicDiskSyncTick s d w r = syncPoolToDisk s d w r)
    ∧ (¬(s.isDirty = true ∧ s.isSyncing = false) →
        periodicDiskSyncTick s d w r = (s, d)) := by
  cases hd : s.isDirty <;> cases hs : s.isSyncing <;>
    simp [periodicDiskSyncTick, hd, hs, syncPoolToDisk_memoryPool,
      syncPoolToDisk_replenishmentLock]

/-- Witness for C8 amended: on a clean state the tick is the identity. -/
theorem c8_amended_tick_only_flushes_witness :
    periodicDiskSyncTick (startupState DiskFile.absent) DiskFile.absent true true
      = (startupState DiskFile.absent, DiskFile.absent) :=
  (c8_amended_tick_only_flushes (startupState DiskFile.absent) DiskFile.absent
      true true).2.2.2 (by decide)
